import Mathlib

/-!
Verification of the carousel / loader logic of
`src/app/routes/collections.$handle.jsx` (a Hydrogen storefront collection
page).  The stateful client-side slider code is embedded shallowly: the
module-level mutable variables become explicit state records, DOM reads
become parameters, and JavaScript numbers become `Int`/`Nat`/`Rat`.
-/

namespace HydrogenApp

/-- Scroll direction, the `direction` argument of `scrollSlider`. -/
inductive Direction where
  | left
  | right
deriving DecidableEq, Repr

/-- `getImagesPerRow` (lines 81-86): breakpoints on `window.innerWidth`. -/
def getImagesPerRow (width : Nat) : Nat :=
  if width ≥ 1024 then 5
  else if width ≥ 768 then 3
  else 1

/-- The offset update performed by `scrollSlider` (lines 121-131), with the
DOM reads made explicit: `imageCount` is `slider.children.length / 2` and
`imagesPerRow` is `getImagesPerRow()`; `o` is the entering `currentSlide`. -/
def advance (direction : Direction) (imageCount imagesPerRow o : Int) : Int :=
  match direction with
  | .left =>
    let o' := o - imagesPerRow
    if o' < 0 then imageCount - imagesPerRow else o'
  | .right =>
    let o' := o + imagesPerRow
    if o' ≥ imageCount then 0 else o'

/-- The offset written by `goToSlide` (lines 137-142): `index * imagesPerRow`. -/
def goToSlideOffset (index imagesPerRow : Int) : Int :=
  index * imagesPerRow

/-- The pure visibility computation of `updateArrowVisibility` (lines
153-161).  The image count is the hard-coded constant 34 (the source comment
reads "Based on your JSON data"); the result is
`(showLeftArrow, showRightArrow)`. -/
def updateArrowVisibility (currentSlide imagesPerRow : Int) : Bool × Bool :=
  let originalImagesCount : Int := 34
  (decide (currentSlide > 0),
   decide (currentSlide < originalImagesCount - imagesPerRow))

/-- The module-level slider state (lines 76-78) together with the visual
transform written by `updateSlider` (line 150), as a record.  `transformPct`
is the percentage inside the `translateX(-…%)` applied to `#imageSlider`. -/
structure CarouselState where
  currentSlide : Int
  showLeftArrow : Bool
  showRightArrow : Bool
  transformPct : ℚ
deriving DecidableEq, Repr

/-- `updateSlider` (lines 144-151): recompute the transform percentage as
`(currentSlide / imagesPerRow) * (100 / imagesPerRow)`. -/
def updateSlider (imagesPerRow : Int) (s : CarouselState) : CarouselState :=
  { s with transformPct :=
      ((s.currentSlide : ℚ) / (imagesPerRow : ℚ)) * (100 / (imagesPerRow : ℚ)) }

/-- The state update performed by `updateArrowVisibility` (lines 153-173). -/
def updateArrowVisibilityState (imagesPerRow : Int) (s : CarouselState) :
    CarouselState :=
  let v := updateArrowVisibility s.currentSlide imagesPerRow
  { s with showLeftArrow := v.1, showRightArrow := v.2 }

/-- The `resize` listener (lines 177-181): reset `currentSlide` to 0, then run
`updateSlider()` and `updateArrowVisibility()` at the new viewport width. -/
def resizeHandler (width : Nat) (s : CarouselState) : CarouselState :=
  let s := { s with currentSlide := 0 }
  let s := updateSlider (getImagesPerRow width : Int) s
  updateArrowVisibilityState (getImagesPerRow width : Int) s

/-- The timer environment: the module variable `scrollInterval` (line 79)
plus the interval timers currently live in the browser, with a counter
supplying fresh handles. -/
structure ScrollState where
  scrollInterval : Option Nat
  activeTimers : List Nat
  nextId : Nat
deriving DecidableEq, Repr

/-- `setInterval`: registers a fresh repeating timer, returning its handle. -/
def setInterval (s : ScrollState) : Nat × ScrollState :=
  (s.nextId,
   { s with activeTimers := s.activeTimers ++ [s.nextId], nextId := s.nextId + 1 })

/-- `clearInterval t`: cancels the timer with handle `t`. -/
def clearInterval (t : Nat) (s : ScrollState) : ScrollState :=
  { s with activeTimers := s.activeTimers.filter (fun x => x ≠ t) }

/-- `startScrolling` (lines 88-98): clear any existing interval, then start a
new 400ms interval and store its handle in `scrollInterval`. -/
def startScrolling (s : ScrollState) : ScrollState :=
  let s :=
    match s.scrollInterval with
    | some t => clearInterval t s
    | none => s
  let p := setInterval s
  { p.2 with scrollInterval := some p.1 }

/-- `stopScrolling` (lines 100-105): if an interval is active, clear it and
null the handle; otherwise do nothing. -/
def stopScrolling (s : ScrollState) : ScrollState :=
  match s.scrollInterval with
  | some t => { clearInterval t s with scrollInterval := none }
  | none => s

/-- The state at module load: `scrollInterval = null`, no live timers. -/
def initScrollState : ScrollState := ⟨none, [], 0⟩

/-- A call to one of the two timer entry points. -/
inductive ScrollOp where
  | start
  | stop
deriving DecidableEq, Repr

/-- Run a sequence of `startScrolling` / `stopScrolling` calls. -/
def runScrollOps (ops : List ScrollOp) (s : ScrollState) : ScrollState :=
  ops.foldl
    (fun s op =>
      match op with
      | ScrollOp.start => startScrolling s
      | ScrollOp.stop => stopScrolling s) s

/-- The live timers are exactly the one stored in `scrollInterval`, if any. -/
def timerInv (s : ScrollState) : Prop :=
  s.activeTimers = s.scrollInterval.toList

/-- The shape of the collection returned by `COLLECTION_QUERY`, restricted to
the fields the loader touches. -/
structure Collection where
  id : String
  handle : String
  title : String
  description : String
deriving DecidableEq, Repr

/-- Outcome of `loadCriticalData` (lines 33-63): a thrown redirect, a thrown
`Response` with a status code, or the returned collection. -/
inductive LoaderResult where
  | redirectTo (path : String)
  | notFound (message : String) (status : Nat)
  | ok (collection : Collection)
deriving DecidableEq, Repr

/-- Modelled from the spec: `redirectIfHandleIsLocalized` is imported from
`~/lib/redirect`, which is not among the available sources.  Per its
call-site comment ("The API handle might be localized, so redirect to the
localized handle") it throws a redirect exactly when the handle returned by
the API differs from the requested one, and otherwise does nothing. -/
def redirectIfHandleIsLocalized (requested : String) (c : Collection) :
    Option String :=
  if c.handle = requested then none else some ("/collections/" ++ c.handle)

/-- `loadCriticalData` (lines 33-63), with the storefront query abstracted as
a function from the handle to the optional collection it returns.  A missing
handle — `!handle` in JavaScript, which also treats the empty string as
falsy — throws a redirect to `/collections`; a query returning no collection
throws a 404 `Response`; otherwise the localization check runs and the
collection is returned. -/
def loadCriticalData (handle : Option String)
    (query : String → Option Collection) : LoaderResult :=
  match handle with
  | none => LoaderResult.redirectTo "/collections"
  | some h =>
    if h = "" then LoaderResult.redirectTo "/collections"
    else
      match query h with
      | none => LoaderResult.notFound ("Collection " ++ h ++ " not found") 404
      | some c =>
        match redirectIfHandleIsLocalized h c with
        | some p => LoaderResult.redirectTo p
        | none => LoaderResult.ok c

end HydrogenApp

namespace HydrogenApp

/-- C1: `advance` subtracts `imagesPerRow` going left, wrapping to
`imageCount - imagesPerRow` when the result is negative, and adds
`imagesPerRow` going right, wrapping to 0 when the result reaches
`imageCount`. -/
theorem advance_spec (N k o : Int) (_hk : k = 1 ∨ k = 3 ∨ k = 5) :
    (advance Direction.left N k o = if o - k < 0 then N - k else o - k) ∧
    (advance Direction.right N k o = if N ≤ o + k then 0 else o + k) := by
  constructor
  · simp [advance]
  · simp [advance, ge_iff_le]

/-- Witness for C1 at `N = 34`, `k = 5`, `o = 10`. -/
theorem advance_spec_witness :
    ((5 : Int) = 1 ∨ (5 : Int) = 3 ∨ (5 : Int) = 5) ∧
    ((advance Direction.left 34 5 10 = if (10 : Int) - 5 < 0 then 34 - 5 else 10 - 5) ∧
     (advance Direction.right 34 5 10 = if (34 : Int) ≤ 10 + 5 then 0 else 10 + 5)) :=
  ⟨by decide, advance_spec 34 5 10 (by decide)⟩

/-- C3 counterexample: in the scenario `imageCount = 34`, `imagesPerRow = 5`,
`advance 'left'` from offset 0 does not yield 30 (it computes
`34 - 5 = 29`), refuting the claimed scenario as stated. -/
theorem advance_scenario_cex :
    ¬ (advance Direction.left 34 5 0 = 30) := by
  decide

/-- C3 (amended): with `imageCount = 34`, `imagesPerRow = 5`, `advance 'left'`
from offset 0 yields 29 (the wrap target `34 - 5`), and `advance 'right'`
from offset 30 yields 0 because `30 + 5 = 35 ≥ 34` triggers the wrap. -/
theorem advance_scenario :
    advance Direction.left 34 5 0 = 29 ∧ advance Direction.right 34 5 30 = 0 := by
  decide

/-- C4: `getImagesPerRow` returns 5 for widths ≥ 1024, 3 for widths in
[768, 1024), and 1 otherwise; its value is always one of 1, 3, 5, and it is
monotonically non-decreasing in the width. -/
theorem getImagesPerRow_spec (w w' : Nat) (hww' : w ≤ w') :
    (getImagesPerRow w = 1 ∨ getImagesPerRow w = 3 ∨ getImagesPerRow w = 5) ∧
    (1024 ≤ w → getImagesPerRow w = 5) ∧
    (768 ≤ w → w < 1024 → getImagesPerRow w = 3) ∧
    (w < 768 → getImagesPerRow w = 1) ∧
    getImagesPerRow w ≤ getImagesPerRow w' := by
  unfold getImagesPerRow
  refine ⟨?_, ?_, ?_, ?_, ?_⟩ <;> split_ifs <;> omega

/-- Witness for C4 at `w = 800`, `w' = 1100`. -/
theorem getImagesPerRow_spec_witness :
    (800 : Nat) ≤ 1100 ∧
    ((getImagesPerRow 800 = 1 ∨ getImagesPerRow 800 = 3 ∨ getImagesPerRow 800 = 5) ∧
     (1024 ≤ 800 → getImagesPerRow 800 = 5) ∧
     (768 ≤ 800 → 800 < 1024 → getImagesPerRow 800 = 3) ∧
     (800 < 768 → getImagesPerRow 800 = 1) ∧
     getImagesPerRow 800 ≤ getImagesPerRow 1100) :=
  ⟨by decide, getImagesPerRow_spec 800 1100 (by decide)⟩

/-- C2 counterexample: with `imageCount = 1 ≥ 1`, `imagesPerRow = 3 ∈ {1,3,5}`
and offset `0 ∈ [0,1)`, `advance 'left'` leaves `[0, 1)` (it returns
`1 - 3 = -2`); and `goToSlide 7` at `imagesPerRow = 5`, `imageCount = 34`
writes offset `35 ∉ [0, 34)`. -/
theorem advance_range_cex :
    ¬ (0 ≤ advance Direction.left 1 3 0 ∧ advance Direction.left 1 3 0 < 1) ∧
    ¬ (0 ≤ goToSlideOffset 7 5 ∧ goToSlideOffset 7 5 < 34) := by
  decide

/-- C2 (amended): when `imageCount ≥ imagesPerRow`, `advance` keeps the offset
within `[0, imageCount)` for every direction and every offset in that range;
`goToSlide` keeps the offset within `[0, imageCount)` only when the requested
`index * imagesPerRow` already lies below `imageCount` (and the index is
non-negative) — it can exceed the range otherwise. -/
theorem advance_range (N k o i : Int) (d : Direction)
    (hk : k = 1 ∨ k = 3 ∨ k = 5) (hkN : k ≤ N) (ho0 : 0 ≤ o) (hoN : o < N)
    (hi : 0 ≤ i) (hik : goToSlideOffset i k < N) :
    (0 ≤ advance d N k o ∧ advance d N k o < N) ∧
    (0 ≤ goToSlideOffset i k ∧ goToSlideOffset i k < N) := by
  constructor
  · cases d <;> simp only [advance] <;> split_ifs <;> omega
  · refine ⟨?_, hik⟩
    unfold goToSlideOffset
    rcases hk with h | h | h <;> subst h <;> positivity

/-- Witness for C2 (amended) at `N = 34`, `k = 5`, `o = 0`, `i = 2`,
direction `right`. -/
theorem advance_range_witness :
    (((5 : Int) = 1 ∨ (5 : Int) = 3 ∨ (5 : Int) = 5) ∧ (5 : Int) ≤ 34 ∧
      (0 : Int) ≤ 0 ∧ (0 : Int) < 34 ∧ (0 : Int) ≤ 2 ∧ goToSlideOffset 2 5 < 34) ∧
    ((0 ≤ advance Direction.right 34 5 0 ∧ advance Direction.right 34 5 0 < 34) ∧
     (0 ≤ goToSlideOffset 2 5 ∧ goToSlideOffset 2 5 < 34)) :=
  ⟨⟨by decide, by decide, by decide, by decide, by decide, by decide⟩,
   advance_range 34 5 0 2 Direction.right (by decide) (by decide) (by decide)
     (by decide) (by decide) (by decide)⟩

/-- C5 counterexample: `imageCount = 10` is an exact multiple of
`imagesPerRow = 5` and `o = 6` is a valid offset in `[0, 10)`, yet the
right-then-left round trip lands on `5`, not back on `6`. -/
theorem advance_round_trip_cex :
    (10 : Int) % 5 = 0 ∧ (0 : Int) ≤ 6 ∧ (6 : Int) < 10 ∧
    advance Direction.left 10 5 (advance Direction.right 10 5 6) ≠ 6 := by
  decide

/-- C5 (amended): when `imageCount` is an exact multiple of `imagesPerRow`
and the offset is itself a multiple of `imagesPerRow` (as every offset
reachable from 0 by `advance` is), going right and then left returns to the
original offset. -/
theorem advance_round_trip (N k o : Int)
    (hk : k = 1 ∨ k = 3 ∨ k = 5) (hN : N % k = 0) (ho : o % k = 0)
    (ho0 : 0 ≤ o) (hoN : o < N) :
    advance Direction.left N k (advance Direction.right N k o) = o := by
  rcases hk with h | h | h <;> subst h <;>
    simp only [advance] <;> split_ifs <;> omega

/-- Witness for C5 (amended) at `N = 35`, `k = 5`, `o = 30` (the wrap case:
right goes to 0, left wraps back to 30). -/
theorem advance_round_trip_witness :
    (((5 : Int) = 1 ∨ (5 : Int) = 3 ∨ (5 : Int) = 5) ∧ (35 : Int) % 5 = 0 ∧
      (30 : Int) % 5 = 0 ∧ (0 : Int) ≤ 30 ∧ (30 : Int) < 35) ∧
    advance Direction.left 35 5 (advance Direction.right 35 5 30) = 30 :=
  ⟨⟨by decide, by decide, by decide, by decide, by decide⟩,
   advance_round_trip 35 5 30 (by decide) (by decide) (by decide) (by decide)
     (by decide)⟩

/-- C6: at offset 6 with `imagesPerRow = 5` and an image list of length 10,
the code decides the right arrow from the hard-coded constant 34: it shows
the arrow (`6 < 34 - 5`) although the documented formula
`offset < imageCount - imagesPerRow` is false there (`6 ≥ 10 - 5`). -/
theorem updateArrowVisibility_hardcoded :
    (updateArrowVisibility 6 5).2 = true ∧
    decide ((6 : Int) < 10 - 5) = false := by
  decide

/-- `startScrolling` preserves the single-timer invariant. -/
theorem timerInv_start (s : ScrollState) (h : timerInv s) :
    timerInv (startScrolling s) := by
  cases hsi : s.scrollInterval with
  | none =>
    have ha : s.activeTimers = [] := by simpa [timerInv, hsi] using h
    simp [timerInv, startScrolling, setInterval, hsi, ha]
  | some t =>
    have ha : s.activeTimers = [t] := by simpa [timerInv, hsi] using h
    simp [timerInv, startScrolling, setInterval, clearInterval, hsi, ha]

/-- `stopScrolling` preserves the single-timer invariant. -/
theorem timerInv_stop (s : ScrollState) (h : timerInv s) :
    timerInv (stopScrolling s) := by
  cases hsi : s.scrollInterval with
  | none => simpa [stopScrolling, hsi] using h
  | some t =>
    have ha : s.activeTimers = [t] := by simpa [timerInv, hsi] using h
    simp [timerInv, stopScrolling, clearInterval, hsi, ha]

/-- Any sequence of timer calls preserves the single-timer invariant. -/
theorem timerInv_run (ops : List ScrollOp) (s : ScrollState) (h : timerInv s) :
    timerInv (runScrollOps ops s) := by
  induction ops generalizing s with
  | nil => simpa [runScrollOps] using h
  | cons op ops ih =>
    cases op with
    | start => exact ih _ (timerInv_start s h)
    | stop => exact ih _ (timerInv_stop s h)

/-- Under the invariant, at most one timer is live. -/
theorem timerInv_length_le_one (s : ScrollState) (h : timerInv s) :
    s.activeTimers.length ≤ 1 := by
  rw [timerInv] at h
  rw [h]
  cases s.scrollInterval <;> simp

/-- C7: `startScrolling` cancels any prior timer before starting a new one,
so any sequence of start/stop calls from the initial state leaves at most one
live timer; starting twice in a row leaves exactly one live timer, and a
single stop after that cancels it, leaving none. -/
theorem scroll_at_most_one_timer :
    (∀ ops : List ScrollOp,
      (runScrollOps ops initScrollState).activeTimers.length ≤ 1) ∧
    (startScrolling (startScrolling initScrollState)).activeTimers.length = 1 ∧
    (stopScrolling (startScrolling (startScrolling
      initScrollState))).activeTimers = [] := by
  refine ⟨fun ops => timerInv_length_le_one _ (timerInv_run ops _ rfl),
    by decide, by decide⟩

/-- C8: under the single-timer invariant, `stopScrolling` empties the timer
handle and leaves no live timer (cancelling the active one when present), and
when no timer is active it is exactly the identity on the state. -/
theorem stopScrolling_spec (s : ScrollState) (h : timerInv s) :
    (stopScrolling s).scrollInterval = none ∧
    (stopScrolling s).activeTimers = [] ∧
    (s.scrollInterval = none → stopScrolling s = s) := by
  cases hsi : s.scrollInterval with
  | none =>
    have ha : s.activeTimers = [] := by simpa [timerInv, hsi] using h
    simp [stopScrolling, hsi, ha]
  | some t =>
    have ha : s.activeTimers = [t] := by simpa [timerInv, hsi] using h
    simp [stopScrolling, clearInterval, hsi, ha]

/-- Witness for C8 at the state reached by one `startScrolling` call. -/
theorem stopScrolling_spec_witness :
    timerInv (startScrolling initScrollState) ∧
    ((stopScrolling (startScrolling initScrollState)).scrollInterval = none ∧
     (stopScrolling (startScrolling initScrollState)).activeTimers = [] ∧
     ((startScrolling initScrollState).scrollInterval = none →
       stopScrolling (startScrolling initScrollState) =
         startScrolling initScrollState)) :=
  ⟨rfl, stopScrolling_spec (startScrolling initScrollState) rfl⟩

/-- C9 counterexample: the collection exists — the query returns it — yet the
loader does not return it: the collection carries a localized handle
different from the requested one, so `redirectIfHandleIsLocalized` throws a
redirect to the localized handle instead. -/
theorem loadCriticalData_localized_cex :
    loadCriticalData (some "frontpage")
        (fun _ => some (Collection.mk "gid2" "startseite" "Frontpage" "d")) =
      LoaderResult.redirectTo "/collections/startseite" ∧
    loadCriticalData (some "frontpage")
        (fun _ => some (Collection.mk "gid2" "startseite" "Frontpage" "d")) ≠
      LoaderResult.ok (Collection.mk "gid2" "startseite" "Frontpage" "d") := by
  decide

/-- C9 (amended): a missing route handle (absent — or empty, hence falsy)
throws a redirect to `/collections`; a present handle whose query returns no
collection throws a 404 response; and when the query returns a collection
whose API handle matches the requested one, neither is thrown and the
collection is returned (a collection under a differing, localized handle is
instead redirected to). -/
theorem loadCriticalData_spec (h : String)
    (qmiss qhit : String → Option Collection) (c : Collection)
    (hne : h ≠ "") (hmiss : qmiss h = none) (hhit : qhit h = some c)
    (hhandle : c.handle = h) :
    loadCriticalData none qmiss = LoaderResult.redirectTo "/collections" ∧
    loadCriticalData (some h) qmiss =
      LoaderResult.notFound ("Collection " ++ h ++ " not found") 404 ∧
    loadCriticalData (some h) qhit = LoaderResult.ok c := by
  refine ⟨rfl, ?_, ?_⟩
  · simp [loadCriticalData, hne, hmiss]
  · simp [loadCriticalData, hne, hhit, redirectIfHandleIsLocalized, hhandle]

/-- Witness for C9 with handle `frontpage` and a one-collection store. -/
theorem loadCriticalData_spec_witness :
    ("frontpage" ≠ "" ∧
      (fun _ : String => (none : Option Collection)) "frontpage" = none ∧
      (fun _ : String =>
        some (Collection.mk "gid1" "frontpage" "Frontpage" "d")) "frontpage" =
        some (Collection.mk "gid1" "frontpage" "Frontpage" "d") ∧
      (Collection.mk "gid1" "frontpage" "Frontpage" "d").handle = "frontpage") ∧
    (loadCriticalData none (fun _ => none) =
      LoaderResult.redirectTo "/collections" ∧
     loadCriticalData (some "frontpage") (fun _ => none) =
      LoaderResult.notFound ("Collection " ++ "frontpage" ++ " not found") 404 ∧
     loadCriticalData (some "frontpage")
        (fun _ => some (Collection.mk "gid1" "frontpage" "Frontpage" "d")) =
      LoaderResult.ok (Collection.mk "gid1" "frontpage" "Frontpage" "d")) :=
  ⟨⟨by decide, rfl, rfl, rfl⟩,
   loadCriticalData_spec "frontpage" (fun _ => none)
     (fun _ => some (Collection.mk "gid1" "frontpage" "Frontpage" "d"))
     (Collection.mk "gid1" "frontpage" "Frontpage" "d")
     (by decide) rfl rfl rfl⟩

/-- C10: the resize handler resets the offset to 0 regardless of the previous
state — two runs from any two prior states agree — and then recomputes the
transform (to 0) and the arrow visibility from offset 0. -/
theorem resizeHandler_resets (w : Nat) (s s' : CarouselState) :
    resizeHandler w s = resizeHandler w s' ∧
    (resizeHandler w s).currentSlide = 0 ∧
    (resizeHandler w s).transformPct = 0 ∧
    (resizeHandler w s).showLeftArrow = false ∧
    (resizeHandler w s).showRightArrow =
      decide ((0 : Int) < 34 - (getImagesPerRow w : Int)) := by
  unfold resizeHandler updateSlider updateArrowVisibilityState
    updateArrowVisibility
  simp

end HydrogenApp
